import Mathlib

/-!
# Temporizador One Shot

A shallow embedding of `Temporizador_One_Shot.c`: a push button starts a
countdown over three LEDs, and a one-shot alarm steps the countdown every
3000 ms until all LEDs are off.

* C `int` values are `Int`; `uint64_t` values are `Nat` below `2 ^ 64`, with
  the wrap-around of the unsigned subtraction written out.
* GPIO outputs are three booleans (one per LED pin); the button input is the
  level read on `BUTTON_PIN` (`true` = high, `false` = low = pressed).
* The alarm pool is the list of the delays (in ms) of the alarms that were
  armed and have not fired yet; `add_alarm_in_ms` appends to it.
* The microsecond clock is an input: every call of `time_us_64` in the source
  is one argument of the function that makes the call.
-/

namespace Temporizador

/-! ## Constants -/

def LED_GREEN : Nat := 11
def LED_BLUE : Nat := 12
def LED_RED : Nat := 13
def BUTTON_PIN : Nat := 5

def IDLE : Int := 0
def ONE_ON : Int := 1
def TWO_ON : Int := 2
def ALL_ON : Int := 3

/-- Number of values of a `uint64_t`. -/
def U64 : Nat := 2 ^ 64

/-- Number of values of a `uint32_t`. -/
def U32 : Nat := 2 ^ 32

/-- Subtraction of two `uint64_t` values: it wraps modulo `2 ^ 64`. -/
def u64_sub (a b : Nat) : Nat := (a % U64 + U64 - b % U64) % U64

/-- Multiplication of two `uint32_t` values: it wraps modulo `2 ^ 32`. -/
def u32_mul (a b : Nat) : Nat := (a * b) % U32

/-! ## Program state -/

/-- The globals of the program, the three LED outputs and the alarm pool. -/
structure State where
  /-- The global `current_state`. -/
  current_state : Int
  /-- The global `last_press_time` (declared, never used). -/
  last_press_time : Nat
  /-- The function-static `last_debounce_time` of `debounce_button`. -/
  last_debounce_time : Nat
  /-- Output level of pin `LED_GREEN`. -/
  led_green : Bool
  /-- Output level of pin `LED_BLUE`. -/
  led_blue : Bool
  /-- Output level of pin `LED_RED`. -/
  led_red : Bool
  /-- Delays in ms of the alarms armed and not fired yet, oldest first. -/
  alarms : List Nat
  deriving DecidableEq, Repr

/-- The state at program start: `current_state = IDLE`, both timestamps 0,
    all outputs low (after `gpio_init`), no alarm armed. -/
def initial : State :=
  { current_state := IDLE, last_press_time := 0, last_debounce_time := 0,
    led_green := false, led_blue := false, led_red := false, alarms := [] }

/-- The three LED outputs as a triple (green, blue, red). -/
def leds (s : State) : Bool × Bool × Bool := (s.led_green, s.led_blue, s.led_red)

/-! ## Collaborators -/

/-- Drive an output pin: `gpio_put(pin, value)`. -/
def gpio_put (pin : Nat) (value : Bool) (s : State) : State :=
  if pin = LED_GREEN then { s with led_green := value }
  else if pin = LED_BLUE then { s with led_blue := value }
  else if pin = LED_RED then { s with led_red := value }
  else s

/-- Arm a one-shot alarm: `add_alarm_in_ms(ms, alarm_callback, NULL, false)`. -/
def add_alarm_in_ms (ms : Nat) (s : State) : State :=
  { s with alarms := s.alarms ++ [ms] }

/-! ## The functions of the source -/

/-- The function `update_leds`: a `switch` on `current_state` with four cases
    and no `default`. -/
def update_leds (s : State) : State :=
  if s.current_state = ALL_ON then
    gpio_put LED_RED true (gpio_put LED_BLUE true (gpio_put LED_GREEN true s))
  else if s.current_state = TWO_ON then
    gpio_put LED_RED true (gpio_put LED_BLUE true (gpio_put LED_GREEN false s))
  else if s.current_state = ONE_ON then
    gpio_put LED_RED true (gpio_put LED_BLUE false (gpio_put LED_GREEN false s))
  else if s.current_state = IDLE then
    gpio_put LED_RED false (gpio_put LED_BLUE false (gpio_put LED_GREEN false s))
  else s

/-- The function `alarm_callback`: the new state and the returned value
    (always 0: the alarm is not rescheduled by the pool). -/
def alarm_callback (s : State) : State × Int :=
  if s.current_state > IDLE then
    let s1 := { s with current_state := s.current_state - 1 }
    let s2 := update_leds s1
    if s2.current_state > IDLE then
      (add_alarm_in_ms 3000 s2, 0)
    else (s2, 0)
  else (s, 0)

/-- The state after one invocation of `alarm_callback`. -/
def advance (s : State) : State := (alarm_callback s).1

/-- What one call of `debounce_button` does. -/
structure Debounce where
  /-- The returned value. -/
  ret : Bool
  /-- The function-static `last_debounce_time` after the call. -/
  last_debounce_time : Nat
  /-- How many times the call read the button pin with `gpio_get`. -/
  gpio_reads : Nat
  deriving DecidableEq, Repr

/-- The local constant `debounce_delay` (milliseconds, `uint32_t`). -/
def debounce_delay : Nat := 50

/-- The function `debounce_button`. `last` is the static `last_debounce_time`
    on entry, `t_check` the clock value read in the condition, `t_store` the
    clock value read in the assignment, `level` the level of `BUTTON_PIN`. -/
def debounce_button (last t_check t_store : Nat) (level : Bool) : Debounce :=
  if u64_sub t_check last > u32_mul debounce_delay 1000 then
    { ret := (level == false), last_debounce_time := t_store, gpio_reads := 1 }
  else
    { ret := false, last_debounce_time := last, gpio_reads := 0 }

/-- One iteration of the `while (true)` loop of `main` (`sleep_ms(10)` changes
    nothing in the state). -/
def loop_iteration (s : State) (t_check t_store : Nat) (level : Bool) : State :=
  let d := debounce_button s.last_debounce_time t_check t_store level
  let s1 := { s with last_debounce_time := d.last_debounce_time }
  if d.ret && s1.current_state == IDLE then
    let s2 := { s1 with current_state := ALL_ON }
    let s3 := update_leds s2
    add_alarm_in_ms 3000 s3
  else s1

/-- The state after `n` successive invocations of `alarm_callback`. -/
def advance_n : Nat → State → State
  | 0, s => s
  | n + 1, s => advance_n n (advance s)

/-! ## Executions -/

/-- The alarm pool fires the oldest pending alarm: the alarm leaves the pool
    and `alarm_callback` runs once (it returns 0, so the pool does not put the
    alarm back). With no alarm pending nothing fires. -/
def fire_alarm (s : State) : State :=
  match s.alarms with
  | [] => s
  | _ :: rest => (alarm_callback { s with alarms := rest }).1

/-- The events that drive the program. -/
inductive Event where
  /-- One iteration of the main loop, with the two clock values it reads and
      the level of the button pin. -/
  | poll (t_check t_store : Nat) (level : Bool)
  /-- The oldest pending alarm fires. -/
  | fire
  /-- A bare invocation of `alarm_callback` that consumes no alarm. -/
  | call
  deriving DecidableEq, Repr

/-- The effect of one event. -/
def step (s : State) : Event → State
  | Event.poll t_check t_store level => loop_iteration s t_check t_store level
  | Event.fire => fire_alarm s
  | Event.call => advance s

/-- The state after a sequence of events, first event first. -/
def run : List Event → State → State
  | [], s => s
  | e :: es, s => run es (step s e)

/-- The output mapping as the specification lists it (section 4.1), in the
    order green, blue, red; it is defined on the four levels only. -/
def output_mapping (level : Int) : Option (Bool × Bool × Bool) :=
  if level = ALL_ON then some (true, true, true)
  else if level = TWO_ON then some (false, true, true)
  else if level = ONE_ON then some (false, false, true)
  else if level = IDLE then some (false, false, false)
  else none

/-- How many of the three LED outputs are on. -/
def lit_count (s : State) : Nat :=
  s.led_green.toNat + s.led_blue.toNat + s.led_red.toNat

/-- The level is one of the four named values. -/
def is_level (level : Int) : Prop :=
  level = IDLE ∨ level = ONE_ON ∨ level = TWO_ON ∨ level = ALL_ON

/-- The level is one of the four values and the outputs are those of the
    level. -/
def LevelInv (s : State) : Prop :=
  is_level s.current_state ∧ output_mapping s.current_state = some (leds s)

/-- One alarm of 3000 ms is pending above `IDLE`, none at `IDLE`. -/
def AlarmInv (s : State) : Prop :=
  s.alarms = if s.current_state > IDLE then [3000] else []

/-! ## Interleaved executions

The alarm pool runs `alarm_callback` in interrupt context: it may run between
any two statements of the main loop, and it runs to completion before the main
loop resumes. The loop body is therefore split into the statements that read
or write `current_state` or the alarm pool, with a program position between
them. `debounce_button` and `update_leds` write neither, so a callback that
runs inside one of them leaves the same level and the same pending alarms as
one that runs just before or just after it. -/

/-- Where the main loop stands inside one iteration. -/
inductive Pc where
  /-- Before the call of `debounce_button`. -/
  | top
  /-- After `debounce_button` returned `ret`, before `current_state == IDLE`
      is evaluated. -/
  | gated (ret : Bool)
  /-- The condition of the `if` was true; before `current_state = ALL_ON`. -/
  | passed
  /-- After `current_state = ALL_ON`, before `update_leds()`. -/
  | assigned
  /-- After `update_leds()`, before `add_alarm_in_ms(3000, ...)`. -/
  | updated
  deriving DecidableEq, Repr

/-- The program state together with the position of the main loop. -/
structure Machine where
  /-- The globals, outputs and alarm pool. -/
  state : State
  /-- The position of the main loop. -/
  pc : Pc
  deriving DecidableEq, Repr

/-- The machine at program start. -/
def Machine.start : Machine := { state := initial, pc := Pc.top }

/-- The smallest steps of an interleaved execution. -/
inductive Micro where
  /-- The main loop executes its next statement; the clock values and the pin
      level are used by the call of `debounce_button` only. -/
  | main (t_check t_store : Nat) (level : Bool)
  /-- The alarm pool fires the oldest pending alarm in interrupt context. -/
  | irq
  deriving DecidableEq, Repr

/-- The effect of one smallest step. -/
def micro_step (m : Machine) : Micro → Machine
  | Micro.irq => { m with state := fire_alarm m.state }
  | Micro.main t_check t_store level =>
    match m.pc with
    | Pc.top =>
      let d := debounce_button m.state.last_debounce_time t_check t_store level
      { state := { m.state with last_debounce_time := d.last_debounce_time },
        pc := Pc.gated d.ret }
    | Pc.gated ret =>
      if ret && m.state.current_state == IDLE then { m with pc := Pc.passed }
      else { m with pc := Pc.top }
    | Pc.passed =>
      { state := { m.state with current_state := ALL_ON }, pc := Pc.assigned }
    | Pc.assigned => { state := update_leds m.state, pc := Pc.updated }
    | Pc.updated => { state := add_alarm_in_ms 3000 m.state, pc := Pc.top }

/-- The machine after a sequence of smallest steps, first step first. -/
def micro_run : List Micro → Machine → Machine
  | [], m => m
  | x :: xs, m => micro_run xs (micro_step m x)

/-- What holds at each position of the main loop: between iterations the level
    is one of the four values and one alarm is pending exactly above `IDLE`;
    once the condition of the `if` was true the level is `IDLE`, then
    `ALL_ON`, and no alarm is pending until the trigger arms its own. -/
def MachineInv (m : Machine) : Prop :=
  match m.pc with
  | Pc.top => is_level m.state.current_state ∧ AlarmInv m.state
  | Pc.gated _ => is_level m.state.current_state ∧ AlarmInv m.state
  | Pc.passed => m.state.current_state = IDLE ∧ m.state.alarms = []
  | Pc.assigned => m.state.current_state = ALL_ON ∧ m.state.alarms = []
  | Pc.updated => m.state.current_state = ALL_ON ∧ m.state.alarms = []

/-! ## Basic facts about the embedding -/

@[simp] theorem gpio_put_current_state (pin : Nat) (v : Bool) (s : State) :
    (gpio_put pin v s).current_state = s.current_state := by
  unfold gpio_put; split_ifs <;> rfl

@[simp] theorem gpio_put_alarms (pin : Nat) (v : Bool) (s : State) :
    (gpio_put pin v s).alarms = s.alarms := by
  unfold gpio_put; split_ifs <;> rfl

@[simp] theorem gpio_put_last_debounce_time (pin : Nat) (v : Bool) (s : State) :
    (gpio_put pin v s).last_debounce_time = s.last_debounce_time := by
  unfold gpio_put; split_ifs <;> rfl

@[simp] theorem gpio_put_last_press_time (pin : Nat) (v : Bool) (s : State) :
    (gpio_put pin v s).last_press_time = s.last_press_time := by
  unfold gpio_put; split_ifs <;> rfl

@[simp] theorem update_leds_current_state (s : State) :
    (update_leds s).current_state = s.current_state := by
  unfold update_leds; split_ifs <;> simp

@[simp] theorem update_leds_alarms (s : State) :
    (update_leds s).alarms = s.alarms := by
  unfold update_leds; split_ifs <;> simp

@[simp] theorem update_leds_last_debounce_time (s : State) :
    (update_leds s).last_debounce_time = s.last_debounce_time := by
  unfold update_leds; split_ifs <;> simp

/-- The LED triple written by `update_leds` at each of the four levels. -/
theorem leds_update_leds (s : State) :
    (s.current_state = ALL_ON → leds (update_leds s) = (true, true, true)) ∧
    (s.current_state = TWO_ON → leds (update_leds s) = (false, true, true)) ∧
    (s.current_state = ONE_ON → leds (update_leds s) = (false, false, true)) ∧
    (s.current_state = IDLE → leds (update_leds s) = (false, false, false)) := by
  refine ⟨?_, ?_, ?_, ?_⟩ <;> intro h <;>
    simp [update_leds, h, leds, gpio_put, LED_GREEN, LED_BLUE, LED_RED,
      ALL_ON, TWO_ON, ONE_ON, IDLE]

/-- At `IDLE` (or below) `alarm_callback` returns the state it was given. -/
theorem advance_of_not_pos (s : State) (h : ¬ s.current_state > IDLE) :
    advance s = s := by
  simp [advance, alarm_callback, h]

/-- Above `IDLE`, `alarm_callback` decrements `current_state` by one. -/
theorem advance_current_state_of_pos (s : State) (h : s.current_state > IDLE) :
    (advance s).current_state = s.current_state - 1 := by
  unfold advance alarm_callback
  rw [if_pos h]
  dsimp only
  split_ifs <;> simp [add_alarm_in_ms]

/-- Above `IDLE`, `alarm_callback` arms an alarm exactly when the decremented
    level is still above `IDLE`. -/
theorem advance_alarms_of_pos (s : State) (h : s.current_state > IDLE) :
    (advance s).alarms =
      if s.current_state - 1 > IDLE then s.alarms ++ [3000] else s.alarms := by
  unfold advance alarm_callback
  rw [if_pos h]
  dsimp only
  simp only [update_leds_current_state]
  split_ifs <;> simp [add_alarm_in_ms]

theorem advance_n_idle (n : Nat) (s : State) (h : s.current_state = IDLE) :
    advance_n n s = s := by
  induction n with
  | zero => rfl
  | succ k ih =>
    have h0 : ¬ s.current_state > IDLE := by rw [h]; exact lt_irrefl _
    simp [advance_n, advance_of_not_pos s h0, ih]

theorem advance_n_add (m n : Nat) (s : State) :
    advance_n (m + n) s = advance_n n (advance_n m s) := by
  induction m generalizing s with
  | zero => simp [advance_n]
  | succ k ih =>
    rw [Nat.succ_add]
    simp [advance_n, ih]

/-! ## Sample states -/

/-- A state at level `ALL_ON` as the trigger leaves it: all LEDs lit and one
    alarm pending. -/
def all_on_state : State :=
  { current_state := ALL_ON, last_press_time := 0, last_debounce_time := 60000,
    led_green := true, led_blue := true, led_red := true, alarms := [3000] }

/-- A state at level `TWO_ON` with its LEDs and one alarm pending. -/
def two_on_state : State :=
  { current_state := TWO_ON, last_press_time := 0, last_debounce_time := 60000,
    led_green := false, led_blue := true, led_red := true, alarms := [3000] }

/-- A state at level `ONE_ON` with its LEDs and one alarm pending. -/
def one_on_state : State :=
  { current_state := ONE_ON, last_press_time := 0, last_debounce_time := 60000,
    led_green := false, led_blue := false, led_red := true, alarms := [3000] }

/-- Level `ALL_ON` with all LEDs still off: the state inside the trigger
    between the assignment to `current_state` and the call of `update_leds`. -/
def stale_state : State :=
  { current_state := ALL_ON, last_press_time := 0, last_debounce_time := 60000,
    led_green := false, led_blue := false, led_red := false, alarms := [] }

/-! ## The countdown (`alarm_callback`) -/

/-- C1: starting from level `ALL_ON` (3), successive invocations of
    `alarm_callback` take `current_state` through `TWO_ON` (2), `ONE_ON` (1),
    `IDLE` (0), one step per invocation, and every further invocation leaves
    `current_state` at `IDLE`. -/
theorem countdown_from_all_on (s : State) (h : s.current_state = ALL_ON) :
    (advance_n 0 s).current_state = ALL_ON ∧
    (advance_n 1 s).current_state = TWO_ON ∧
    (advance_n 2 s).current_state = ONE_ON ∧
    (advance_n 3 s).current_state = IDLE ∧
    ∀ n : Nat, (advance_n (3 + n) s).current_state = IDLE := by
  have h1 : (advance s).current_state = TWO_ON := by
    rw [advance_current_state_of_pos s (by rw [h]; decide), h]; rfl
  have h2 : (advance (advance s)).current_state = ONE_ON := by
    rw [advance_current_state_of_pos _ (by rw [h1]; decide), h1]; rfl
  have h3 : (advance (advance (advance s))).current_state = IDLE := by
    rw [advance_current_state_of_pos _ (by rw [h2]; decide), h2]; rfl
  refine ⟨h, h1, h2, h3, ?_⟩
  intro n
  rw [advance_n_add]
  have e : advance_n 3 s = advance (advance (advance s)) := rfl
  rw [e, advance_n_idle n _ h3, h3]

/-- Witness of C1 on `all_on_state`. -/
theorem countdown_from_all_on_witness :
    all_on_state.current_state = ALL_ON ∧
    (advance_n 1 all_on_state).current_state = TWO_ON ∧
    (advance_n 2 all_on_state).current_state = ONE_ON ∧
    (advance_n 3 all_on_state).current_state = IDLE ∧
    (advance_n (3 + 4) all_on_state).current_state = IDLE :=
  have w := countdown_from_all_on all_on_state rfl
  ⟨rfl, w.2.1, w.2.2.1, w.2.2.2.1, w.2.2.2.2 4⟩

/-- C5: a call of `alarm_callback` at a level above `IDLE` arms exactly one new
    alarm, with delay 3000 ms, when the resulting level is still above `IDLE`,
    and arms none when the resulting level is `IDLE`; it returns 0, so the pool
    does not reschedule the alarm that fired. -/
theorem alarm_callback_rearm (s : State) (h : s.current_state > IDLE) :
    ((alarm_callback s).1.current_state > IDLE →
      (alarm_callback s).1.alarms = s.alarms ++ [3000]) ∧
    ((alarm_callback s).1.current_state = IDLE →
      (alarm_callback s).1.alarms = s.alarms) ∧
    (alarm_callback s).2 = 0 := by
  have hc := advance_current_state_of_pos s h
  have ha := advance_alarms_of_pos s h
  unfold advance at hc ha
  refine ⟨?_, ?_, ?_⟩
  · intro hp
    rw [hc] at hp
    rw [ha, if_pos hp]
  · intro hz
    rw [hc] at hz
    rw [ha, if_neg (by rw [hz]; exact lt_irrefl _)]
  · unfold alarm_callback
    rw [if_pos h]
    dsimp only
    split_ifs <;> rfl

/-- Witness of C5 on `all_on_state` (re-arms) and on `one_on_state` (does not). -/
theorem alarm_callback_rearm_witness :
    all_on_state.current_state > IDLE ∧
    (alarm_callback all_on_state).1.current_state = TWO_ON ∧
    (alarm_callback all_on_state).1.alarms = all_on_state.alarms ++ [3000] ∧
    one_on_state.current_state > IDLE ∧
    (alarm_callback one_on_state).1.current_state = IDLE ∧
    (alarm_callback one_on_state).1.alarms = one_on_state.alarms :=
  ⟨by decide, by decide,
    (alarm_callback_rearm all_on_state (by decide)).1 (by decide),
    by decide, by decide,
    (alarm_callback_rearm one_on_state (by decide)).2.1 (by decide)⟩

/-- C6: `alarm_callback` called at `IDLE` changes nothing (level, LED outputs
    and pending alarms are those of the state it was given); and at every
    level it never increases `current_state` and never takes a level that is
    at or above `IDLE` below `IDLE`. -/
theorem alarm_callback_safe (s : State) :
    (s.current_state = IDLE →
      (alarm_callback s).1.current_state = s.current_state ∧
      leds (alarm_callback s).1 = leds s ∧
      (alarm_callback s).1.alarms = s.alarms ∧
      alarm_callback s = (s, 0)) ∧
    (alarm_callback s).1.current_state ≤ s.current_state ∧
    (IDLE ≤ s.current_state → IDLE ≤ (alarm_callback s).1.current_state) := by
  refine ⟨?_, ?_, ?_⟩
  · intro h
    have e : alarm_callback s = (s, 0) := by
      unfold alarm_callback
      rw [if_neg (by rw [h]; exact lt_irrefl _)]
    rw [e]
    exact ⟨rfl, rfl, rfl, rfl⟩
  · by_cases hp : s.current_state > IDLE
    · have hc := advance_current_state_of_pos s hp
      unfold advance at hc
      rw [hc]
      omega
    · have e := advance_of_not_pos s hp
      unfold advance at e
      rw [e]
  · intro h0
    by_cases hp : s.current_state > IDLE
    · have hc := advance_current_state_of_pos s hp
      unfold advance at hc
      rw [hc]
      unfold IDLE at hp ⊢
      omega
    · have e := advance_of_not_pos s hp
      unfold advance at e
      rw [e]
      exact h0

/-- Witness of C6 on the initial state (level `IDLE`). -/
theorem alarm_callback_safe_witness :
    initial.current_state = IDLE ∧
    alarm_callback initial = (initial, 0) ∧
    IDLE ≤ (alarm_callback initial).1.current_state :=
  ⟨rfl, ((alarm_callback_safe initial).1 rfl).2.2.2,
    (alarm_callback_safe initial).2.2 (by decide)⟩

/-! ## The output mapping (`update_leds`) -/

/-- C2: at each of the four levels `update_leds` leaves the three outputs at
    exactly these values: `ALL_ON` (on, on, on), `TWO_ON` (off, on, on),
    `ONE_ON` (off, off, on), `IDLE` (off, off, off), in the order green, blue,
    red; and at these levels the outputs depend on the level only: two states
    at the same level get the same outputs, whatever their outputs were. -/
theorem update_leds_mapping (s : State) :
    (s.current_state = ALL_ON → leds (update_leds s) = (true, true, true)) ∧
    (s.current_state = TWO_ON → leds (update_leds s) = (false, true, true)) ∧
    (s.current_state = ONE_ON → leds (update_leds s) = (false, false, true)) ∧
    (s.current_state = IDLE → leds (update_leds s) = (false, false, false)) ∧
    (∀ s2 : State, s2.current_state = s.current_state →
      (s.current_state = ALL_ON ∨ s.current_state = TWO_ON ∨
        s.current_state = ONE_ON ∨ s.current_state = IDLE) →
      leds (update_leds s2) = leds (update_leds s)) := by
  obtain ⟨a, b, c, d⟩ := leds_update_leds s
  refine ⟨a, b, c, d, ?_⟩
  intro s2 he hl
  obtain ⟨a2, b2, c2, d2⟩ := leds_update_leds s2
  rw [he] at a2 b2 c2 d2
  rcases hl with h | h | h | h
  · rw [a h, a2 h]
  · rw [b h, b2 h]
  · rw [c h, c2 h]
  · rw [d h, d2 h]

/-- Witness of C2: level `ALL_ON` with the LEDs lit or not yet lit. -/
theorem update_leds_mapping_witness :
    all_on_state.current_state = ALL_ON ∧
    leds (update_leds all_on_state) = (true, true, true) ∧
    stale_state.current_state = all_on_state.current_state ∧
    leds stale_state ≠ leds all_on_state ∧
    leds (update_leds stale_state) = leds (update_leds all_on_state) :=
  ⟨rfl, (update_leds_mapping all_on_state).1 rfl, rfl, by decide,
    (update_leds_mapping all_on_state).2.2.2.2 stale_state rfl (Or.inl rfl)⟩

/-! ## The trigger (main loop) -/

/-- C3: when the level is `IDLE` and `debounce_button` reports a press, one
    iteration of the main loop sets `current_state` to `ALL_ON`, drives the
    outputs to (on, on, on) and arms exactly one alarm, with delay 3000 ms. -/
theorem trigger_from_idle (s : State) (t_check t_store : Nat) (level : Bool)
    (hidle : s.current_state = IDLE)
    (hpress : (debounce_button s.last_debounce_time t_check t_store level).ret = true) :
    (loop_iteration s t_check t_store level).current_state = ALL_ON ∧
    leds (loop_iteration s t_check t_store level) = (true, true, true) ∧
    (loop_iteration s t_check t_store level).alarms = s.alarms ++ [3000] := by
  unfold loop_iteration
  simp only [hpress, hidle, beq_self_eq_true, Bool.and_self, if_true]
  refine ⟨?_, ?_, ?_⟩
  · simp [add_alarm_in_ms]
  · simp [add_alarm_in_ms, leds, update_leds, gpio_put, LED_GREEN, LED_BLUE, LED_RED]
  · simp [add_alarm_in_ms]

/-- Witness of C3: the initial state, the button held low at t = 60 ms. -/
theorem trigger_from_idle_witness :
    initial.current_state = IDLE ∧
    (debounce_button initial.last_debounce_time 60000 60000 false).ret = true ∧
    (loop_iteration initial 60000 60000 false).current_state = ALL_ON ∧
    leds (loop_iteration initial 60000 60000 false) = (true, true, true) ∧
    (loop_iteration initial 60000 60000 false).alarms = initial.alarms ++ [3000] :=
  ⟨rfl, by decide, trigger_from_idle initial 60000 60000 false rfl (by decide)⟩

/-- C4: whenever `current_state` is not `IDLE`, one iteration of the main loop
    changes neither `current_state` nor any LED output and arms no alarm,
    whatever `debounce_button` returns (a reported press included). -/
theorem trigger_ignored_when_not_idle (s : State) (t_check t_store : Nat)
    (level : Bool) (hbusy : s.current_state ≠ IDLE) :
    (loop_iteration s t_check t_store level).current_state = s.current_state ∧
    leds (loop_iteration s t_check t_store level) = leds s ∧
    (loop_iteration s t_check t_store level).alarms = s.alarms := by
  unfold loop_iteration
  simp [hbusy, leds]

/-- Witness of C4: level `TWO_ON`, the button held low at t = 4000 ms, where
    `debounce_button` does report a press. -/
theorem trigger_ignored_when_not_idle_witness :
    two_on_state.current_state ≠ IDLE ∧
    (debounce_button two_on_state.last_debounce_time 4000000 4000000 false).ret = true ∧
    (loop_iteration two_on_state 4000000 4000000 false).current_state = TWO_ON ∧
    leds (loop_iteration two_on_state 4000000 4000000 false) = leds two_on_state ∧
    (loop_iteration two_on_state 4000000 4000000 false).alarms = two_on_state.alarms :=
  ⟨by decide, by decide,
    trigger_ignored_when_not_idle two_on_state 4000000 4000000 false (by decide)⟩

/-! ## The input gate (`debounce_button`) -/

/-- The threshold of the comparison, `debounce_delay * 1000`, is 50000. -/
theorem debounce_threshold : u32_mul debounce_delay 1000 = 50000 := by decide

/-- Without wrap-around the unsigned subtraction is the ordinary one. -/
theorem u64_sub_of_le (a b : Nat) (hba : b ≤ a) (ha : a < U64) :
    u64_sub a b = a - b := by
  unfold u64_sub U64 at *
  omega

/-- When the subtrahend is larger the unsigned subtraction wraps. -/
theorem u64_sub_of_lt (a b : Nat) (hab : a < b) (hb : b < U64) :
    u64_sub a b = a + U64 - b := by
  unfold u64_sub U64 at *
  omega

/-- The open branch of `debounce_button`. -/
theorem debounce_button_open (last t_check t_store : Nat) (level : Bool)
    (h : u64_sub t_check last > 50000) :
    debounce_button last t_check t_store level =
      { ret := (level == false), last_debounce_time := t_store, gpio_reads := 1 } := by
  unfold debounce_button
  rw [debounce_threshold, if_pos h]

/-- The closed branch of `debounce_button`. -/
theorem debounce_button_closed (last t_check t_store : Nat) (level : Bool)
    (h : ¬ u64_sub t_check last > 50000) :
    debounce_button last t_check t_store level =
      { ret := false, last_debounce_time := last, gpio_reads := 0 } := by
  unfold debounce_button
  rw [debounce_threshold, if_neg h]

/-- C7 as stated fails at the boundary: with exactly 50000 microseconds elapsed
    (`last = 0`, `now = 50000`) and the button pressed (pin low), the call
    returns false, reads nothing and keeps 0 as the stored time. -/
theorem gate_closed_at_exactly_50000 :
    (0 : Nat) ≤ 50000 ∧ 50000 < U64 ∧ 50000 - 0 ≥ 50000 ∧
    (debounce_button 0 50000 50000 false).ret = false ∧
    (debounce_button 0 50000 50000 false).last_debounce_time = 0 ∧
    (debounce_button 0 50000 50000 false).gpio_reads = 0 := by
  decide

/-- C7 (amended): for every stored time `last`, every clock value `now ≥ last`
    (both clock reads of the call returning `now`) and every pin level, if
    strictly more than 50000 microseconds have elapsed (`now - last > 50000`),
    `debounce_button` opens the gate: it stores `now` as the new last-check
    time, reads the pin once, and returns true if and only if the pin reads
    low (pressed). At exactly 50000 microseconds elapsed the gate is still
    closed: the call returns false, reads nothing and keeps the stored time. -/
theorem gate_opens_after_delay (last now : Nat) (level : Bool)
    (hle : last ≤ now) (h64 : now < U64) :
    (now - last > 50000 →
      (debounce_button last now now level).last_debounce_time = now ∧
      ((debounce_button last now now level).ret = true ↔ level = false) ∧
      (debounce_button last now now level).gpio_reads = 1) ∧
    (now - last = 50000 →
      (debounce_button last now now level).ret = false ∧
      (debounce_button last now now level).last_debounce_time = last ∧
      (debounce_button last now now level).gpio_reads = 0) := by
  have e := u64_sub_of_le now last hle h64
  refine ⟨?_, ?_⟩
  · intro hgt
    have h : u64_sub now last > 50000 := by rw [e]; exact hgt
    rw [debounce_button_open last now now level h]
    simp
  · intro heq
    have h : ¬ u64_sub now last > 50000 := by rw [e, heq]; exact lt_irrefl _
    rw [debounce_button_closed last now now level h]
    exact ⟨rfl, rfl, rfl⟩

/-- Witness of C7 (amended): 50001 microseconds after time 0 the gate opens;
    exactly 50000 microseconds after an accepted check at 60000 it does not. -/
theorem gate_opens_after_delay_witness :
    (0 : Nat) ≤ 50001 ∧ 50001 < U64 ∧ 50001 - 0 > 50000 ∧
    (debounce_button 0 50001 50001 false).last_debounce_time = 50001 ∧
    ((debounce_button 0 50001 50001 false).ret = true ↔ false = false) ∧
    (debounce_button 0 50001 50001 false).gpio_reads = 1 ∧
    (60000 : Nat) ≤ 110000 ∧ 110000 < U64 ∧ 110000 - 60000 = 50000 ∧
    (debounce_button 60000 110000 110000 false).ret = false ∧
    (debounce_button 60000 110000 110000 false).last_debounce_time = 60000 ∧
    (debounce_button 60000 110000 110000 false).gpio_reads = 0 :=
  have w1 := (gate_opens_after_delay 0 50001 false (by decide) (by decide)).1 (by decide)
  have w2 :=
    (gate_opens_after_delay 60000 110000 false (by decide) (by decide)).2 (by decide)
  ⟨by decide, by decide, by decide, w1.1, w1.2.1, w1.2.2,
    by decide, by decide, by decide, w2.1, w2.2.1, w2.2.2⟩

/-- C8: for every stored time `last`, every clock value `now ≥ last` with
    `now - last < 50000` and every pin level, `debounce_button` returns false,
    does not read the pin (no `gpio_get`, and the outcome is the same for both
    pin levels) and leaves the stored last-check time unchanged. -/
theorem gate_closed_within_delay (last now t_store : Nat) (level : Bool)
    (hle : last ≤ now) (h64 : now < U64) (hlt : now - last < 50000) :
    (debounce_button last now t_store level).ret = false ∧
    (debounce_button last now t_store level).gpio_reads = 0 ∧
    (debounce_button last now t_store level).last_debounce_time = last ∧
    debounce_button last now t_store level =
      debounce_button last now t_store (!level) := by
  have h : ¬ u64_sub now last > 50000 := by
    rw [u64_sub_of_le now last hle h64]; omega
  rw [debounce_button_closed last now t_store level h,
    debounce_button_closed last now t_store (!level) h]
  exact ⟨rfl, rfl, rfl, rfl⟩

/-- Witness of C8: 40000 microseconds after an accepted check at 60000, with
    the button pressed. -/
theorem gate_closed_within_delay_witness :
    (60000 : Nat) ≤ 100000 ∧ 100000 < U64 ∧ 100000 - 60000 < 50000 ∧
    (debounce_button 60000 100000 100000 false).ret = false ∧
    (debounce_button 60000 100000 100000 false).gpio_reads = 0 ∧
    (debounce_button 60000 100000 100000 false).last_debounce_time = 60000 ∧
    debounce_button 60000 100000 100000 false =
      debounce_button 60000 100000 100000 (!false) :=
  ⟨by decide, by decide, by decide,
    gate_closed_within_delay 60000 100000 100000 false
      (by decide) (by decide) (by decide)⟩

/-- C9 as stated fails on the first call: on a fresh gate (stored time 0) a
    call at `now = 0` with the button pressed (pin low) returns false, not the
    pin's reading, and does not read the pin. -/
theorem fresh_gate_first_call_closed :
    (debounce_button initial.last_debounce_time 0 0 false).ret = false ∧
    (debounce_button initial.last_debounce_time 0 0 false).gpio_reads = 0 ∧
    (debounce_button initial.last_debounce_time 0 0 false).ret ≠ (false == false) := by
  decide

/-- C9 (amended): on a fresh gate (stored time 0) a first call at `now = 0`
    returns false whatever the pin level and leaves the stored time at 0; a
    second call at `now = 40000` returns false whatever the pin level; a third
    call at `now = 60000` returns the pin's current reading (true iff low) and
    updates the stored time to 60000. -/
theorem fresh_gate_three_calls (l1 l2 l3 : Bool) :
    (debounce_button initial.last_debounce_time 0 0 l1).ret = false ∧
    (debounce_button initial.last_debounce_time 0 0 l1).last_debounce_time = 0 ∧
    (debounce_button
      (debounce_button initial.last_debounce_time 0 0 l1).last_debounce_time
      40000 40000 l2).ret = false ∧
    (debounce_button
      (debounce_button
        (debounce_button initial.last_debounce_time 0 0 l1).last_debounce_time
        40000 40000 l2).last_debounce_time
      60000 60000 l3).ret = (l3 == false) ∧
    (debounce_button
      (debounce_button
        (debounce_button initial.last_debounce_time 0 0 l1).last_debounce_time
        40000 40000 l2).last_debounce_time
      60000 60000 l3).last_debounce_time = 60000 := by
  cases l1 <;> cases l2 <;> cases l3 <;> decide

/-- C10 as stated fails: with stored time 100000 and the clock reading 0 the
    unsigned subtraction wraps to `2 ^ 64 - 100000`, the gate opens, and with
    the button pressed the call returns true and overwrites the stored time. -/
theorem backwards_clock_opens_gate :
    (0 : Nat) < 100000 ∧ 100000 < U64 ∧
    u64_sub 0 100000 = 18446744073709451616 ∧
    (debounce_button 100000 0 0 false).ret = true ∧
    (debounce_button 100000 0 0 false).last_debounce_time = 0 ∧
    (debounce_button 100000 0 0 false).gpio_reads = 1 := by
  decide

/-- C10 (amended): when `debounce_button` is called with a clock value `now`
    smaller than the stored last-check time `last`, the elapsed time is not
    clamped: the 64-bit unsigned subtraction wraps to `now + 2 ^ 64 - last`.
    When that value exceeds 50000 the gate opens (the call stores `now` and
    returns true iff the pin reads low); otherwise the call returns false and
    leaves the stored time unchanged. -/
theorem backwards_clock_wraps (last now : Nat) (level : Bool)
    (hlt : now < last) (h64 : last < U64) :
    u64_sub now last = now + U64 - last ∧
    (now + U64 - last > 50000 →
      debounce_button last now now level =
        { ret := (level == false), last_debounce_time := now, gpio_reads := 1 }) ∧
    (now + U64 - last ≤ 50000 →
      debounce_button last now now level =
        { ret := false, last_debounce_time := last, gpio_reads := 0 }) := by
  have e := u64_sub_of_lt now last hlt h64
  refine ⟨e, ?_, ?_⟩
  · intro h
    exact debounce_button_open last now now level (by rw [e]; exact h)
  · intro h
    exact debounce_button_closed last now now level (by rw [e]; omega)

/-- Witness of C10 (amended): the clock at 0 against a stored time of 100000
    (gate opens) and against a stored time of `2 ^ 64 - 1` (gate closed). -/
theorem backwards_clock_wraps_witness :
    (0 : Nat) < 100000 ∧ 100000 < U64 ∧ 0 + U64 - 100000 > 50000 ∧
    debounce_button 100000 0 0 false =
      { ret := true, last_debounce_time := 0, gpio_reads := 1 } ∧
    (0 : Nat) < 18446744073709551615 ∧ 18446744073709551615 < U64 ∧
    0 + U64 - 18446744073709551615 ≤ 50000 ∧
    debounce_button 18446744073709551615 0 0 false =
      { ret := false, last_debounce_time := 18446744073709551615, gpio_reads := 0 } :=
  ⟨by decide, by decide, by decide,
    (backwards_clock_wraps 100000 0 false (by decide) (by decide)).2.1 (by decide),
    by decide, by decide, by decide,
    (backwards_clock_wraps 18446744073709551615 0 false (by decide) (by decide)).2.2
      (by decide)⟩

/-! ## Invariants of the executions -/

@[simp] theorem leds_add_alarm_in_ms (ms : Nat) (s : State) :
    leds (add_alarm_in_ms ms s) = leds s := rfl

@[simp] theorem add_alarm_in_ms_current_state (ms : Nat) (s : State) :
    (add_alarm_in_ms ms s).current_state = s.current_state := rfl

@[simp] theorem add_alarm_in_ms_alarms (ms : Nat) (s : State) :
    (add_alarm_in_ms ms s).alarms = s.alarms ++ [ms] := rfl

/-- On the four levels `update_leds` implements the output mapping of the
    specification. -/
theorem output_mapping_update_leds (s : State) (h : is_level s.current_state) :
    output_mapping s.current_state = some (leds (update_leds s)) := by
  obtain ⟨a, b, c, d⟩ := leds_update_leds s
  rcases h with h | h | h | h
  · rw [d h, h]; rfl
  · rw [c h, h]; rfl
  · rw [b h, h]; rfl
  · rw [a h, h]; rfl

/-- Above `IDLE`, what `alarm_callback` computes. -/
theorem advance_of_pos (s : State) (h : s.current_state > IDLE) :
    advance s =
      if s.current_state - 1 > IDLE then
        add_alarm_in_ms 3000 (update_leds { s with current_state := s.current_state - 1 })
      else update_leds { s with current_state := s.current_state - 1 } := by
  unfold advance alarm_callback
  rw [if_pos h]
  dsimp only
  simp only [update_leds_current_state]
  split_ifs <;> rfl

/-- The LED outputs after `alarm_callback` above `IDLE`. -/
theorem leds_advance_of_pos (s : State) (h : s.current_state > IDLE) :
    leds (advance s) =
      leds (update_leds { s with current_state := s.current_state - 1 }) := by
  rw [advance_of_pos s h]
  split_ifs <;> rfl

/-- A main-loop iteration that does not trigger only stores the gate's time. -/
theorem loop_iteration_of_no_trigger (s : State) (t_check t_store : Nat) (level : Bool)
    (h : ¬ ((debounce_button s.last_debounce_time t_check t_store level).ret = true ∧
      s.current_state = IDLE)) :
    loop_iteration s t_check t_store level =
      { s with last_debounce_time :=
          (debounce_button s.last_debounce_time t_check t_store level).last_debounce_time } := by
  unfold loop_iteration
  dsimp only
  rw [if_neg]
  simpa using h

/-- A main-loop iteration that triggers. -/
theorem loop_iteration_of_trigger (s : State) (t_check t_store : Nat) (level : Bool)
    (h : (debounce_button s.last_debounce_time t_check t_store level).ret = true ∧
      s.current_state = IDLE) :
    loop_iteration s t_check t_store level =
      add_alarm_in_ms 3000 (update_leds
        { s with
          last_debounce_time :=
            (debounce_button s.last_debounce_time t_check t_store level).last_debounce_time,
          current_state := ALL_ON }) := by
  unfold loop_iteration
  dsimp only
  rw [if_pos]
  simpa using h

theorem is_level_pred (c : Int) (h : is_level c) (hp : c > IDLE) : is_level (c - 1) := by
  unfold is_level IDLE ONE_ON TWO_ON ALL_ON at *
  omega

theorem LevelInv_advance (s : State) (h : LevelInv s) : LevelInv (advance s) := by
  by_cases hp : s.current_state > IDLE
  · have hl : is_level (s.current_state - 1) := is_level_pred _ h.1 hp
    refine ⟨?_, ?_⟩
    · rw [advance_current_state_of_pos s hp]; exact hl
    · rw [advance_current_state_of_pos s hp, leds_advance_of_pos s hp]
      exact output_mapping_update_leds { s with current_state := s.current_state - 1 } hl
  · rw [advance_of_not_pos s hp]; exact h

theorem LevelInv_loop_iteration (s : State) (t_check t_store : Nat) (level : Bool)
    (h : LevelInv s) : LevelInv (loop_iteration s t_check t_store level) := by
  by_cases ht : (debounce_button s.last_debounce_time t_check t_store level).ret = true ∧
      s.current_state = IDLE
  · rw [loop_iteration_of_trigger s t_check t_store level ht]
    have hl : is_level ALL_ON := Or.inr (Or.inr (Or.inr rfl))
    refine ⟨?_, ?_⟩
    · simpa using hl
    · have := output_mapping_update_leds
        { s with
          last_debounce_time :=
            (debounce_button s.last_debounce_time t_check t_store level).last_debounce_time,
          current_state := ALL_ON } hl
      simpa using this
  · rw [loop_iteration_of_no_trigger s t_check t_store level ht]
    exact h

theorem LevelInv_fire_alarm (s : State) (h : LevelInv s) : LevelInv (fire_alarm s) := by
  unfold fire_alarm
  split
  · exact h
  · exact LevelInv_advance _ h

theorem LevelInv_step (s : State) (e : Event) (h : LevelInv s) : LevelInv (step s e) := by
  cases e with
  | poll t_check t_store level => exact LevelInv_loop_iteration s t_check t_store level h
  | fire => exact LevelInv_fire_alarm s h
  | call => exact LevelInv_advance s h

theorem LevelInv_run (es : List Event) (s : State) (h : LevelInv s) :
    LevelInv (run es s) := by
  induction es generalizing s with
  | nil => exact h
  | cons e es ih => exact ih (step s e) (LevelInv_step s e h)

theorem LevelInv_initial : LevelInv initial :=
  ⟨Or.inl rfl, rfl⟩

theorem AlarmInv_loop_iteration (s : State) (t_check t_store : Nat) (level : Bool)
    (h : AlarmInv s) : AlarmInv (loop_iteration s t_check t_store level) := by
  by_cases ht : (debounce_button s.last_debounce_time t_check t_store level).ret = true ∧
      s.current_state = IDLE
  · rw [loop_iteration_of_trigger s t_check t_store level ht]
    unfold AlarmInv at *
    rw [ht.2, if_neg (lt_irrefl _)] at h
    simp [h, ALL_ON, IDLE]
  · rw [loop_iteration_of_no_trigger s t_check t_store level ht]
    exact h

theorem AlarmInv_fire_alarm (s : State) (h : AlarmInv s) : AlarmInv (fire_alarm s) := by
  unfold fire_alarm
  split
  · exact h
  · rename_i a rest he
    unfold AlarmInv at h
    rw [he] at h
    by_cases hp : s.current_state > IDLE
    · rw [if_pos hp] at h
      have hr : rest = [] := by
        have := (List.cons.inj h).2
        exact this
      subst hr
      have hp2 : ({ s with alarms := [] } : State).current_state > IDLE := hp
      have hc := advance_current_state_of_pos _ hp2
      have ha := advance_alarms_of_pos _ hp2
      unfold advance at hc ha
      unfold AlarmInv
      rw [hc, ha]
      split_ifs <;> rfl
    · rw [if_neg hp] at h
      exact absurd h (List.cons_ne_nil _ _)

theorem AlarmInv_run (es : List Event) (s : State) (h : AlarmInv s)
    (hc : Event.call ∉ es) : AlarmInv (run es s) := by
  induction es generalizing s with
  | nil => exact h
  | cons e es ih =>
    have hne : e ≠ Event.call := fun heq => hc (by rw [heq]; exact List.mem_cons_self _ _)
    have hes : Event.call ∉ es := fun hm => hc (List.mem_cons_of_mem _ hm)
    cases e with
    | poll t_check t_store level =>
      exact ih _ (AlarmInv_loop_iteration s t_check t_store level h) hes
    | fire => exact ih _ (AlarmInv_fire_alarm s h) hes
    | call => exact absurd rfl hne

theorem AlarmInv_initial : AlarmInv initial := rfl

theorem run_append (es fs : List Event) (s : State) :
    run (es ++ fs) s = run fs (run es s) := by
  induction es generalizing s with
  | nil => rfl
  | cons e es ih => exact ih (step s e)

/-- Under both invariants, firing from level `n` reaches `IDLE` after exactly
    `n` firings: fewer firings leave the level above `IDLE`. -/
theorem fire_countdown (n : Nat) (s : State) (ha : AlarmInv s)
    (hn : s.current_state = (n : Int)) :
    (run (List.replicate n Event.fire) s).current_state = IDLE ∧
    (run (List.replicate n Event.fire) s).alarms = [] ∧
    ∀ k : Nat, k < n →
      (run (List.replicate k Event.fire) s).current_state = (n : Int) - (k : Int) := by
  induction n generalizing s with
  | zero =>
    refine ⟨hn, ?_, ?_⟩
    · unfold AlarmInv at ha
      show s.alarms = []
      rw [ha, if_neg (by rw [hn]; exact lt_irrefl _)]
    · intro k hk; exact absurd hk (Nat.not_lt_zero k)
  | succ m ih =>
    have hp : s.current_state > IDLE := by rw [hn]; unfold IDLE; omega
    have hal : s.alarms = [3000] := by
      unfold AlarmInv at ha; rw [ha, if_pos hp]
    have hf : fire_alarm s = advance { s with alarms := [] } := by
      unfold fire_alarm advance; rw [hal]
    have hc : (fire_alarm s).current_state = (m : Int) := by
      have hp2 : ({ s with alarms := [] } : State).current_state > IDLE := hp
      rw [hf, advance_current_state_of_pos { s with alarms := [] } hp2]
      show s.current_state - 1 = (m : Int)
      rw [hn]; push_cast; ring
    obtain ⟨i1, i2, i3⟩ := ih (fire_alarm s) (AlarmInv_fire_alarm s ha) hc
    refine ⟨i1, i2, ?_⟩
    intro k hk
    cases k with
    | zero => simpa [run] using hn
    | succ j =>
      have := i3 j (by omega)
      simp only [List.replicate, run, step]
      rw [this]; push_cast; ring

/-- How `alarm_callback` changes the level: not at all, or down by one. -/
theorem advance_current_state_cases (s : State) :
    (advance s).current_state = s.current_state ∨
    (advance s).current_state = s.current_state - 1 := by
  by_cases hp : s.current_state > IDLE
  · exact Or.inr (advance_current_state_of_pos s hp)
  · exact Or.inl (by rw [advance_of_not_pos s hp])

/-- How a firing alarm changes the level: not at all, or down by one. -/
theorem fire_alarm_current_state_cases (s : State) :
    (fire_alarm s).current_state = s.current_state ∨
    (fire_alarm s).current_state = s.current_state - 1 := by
  unfold fire_alarm
  split
  · exact Or.inl rfl
  · rename_i a rest he
    exact advance_current_state_cases { s with alarms := rest }

/-- How a main-loop iteration changes the level: not at all, or from `IDLE`
    to `ALL_ON`. -/
theorem loop_iteration_current_state_cases (s : State) (t_check t_store : Nat)
    (level : Bool) :
    (loop_iteration s t_check t_store level).current_state = s.current_state ∨
    (s.current_state = IDLE ∧
      (loop_iteration s t_check t_store level).current_state = ALL_ON) := by
  by_cases ht : (debounce_button s.last_debounce_time t_check t_store level).ret = true ∧
      s.current_state = IDLE
  · refine Or.inr ⟨ht.2, ?_⟩
    rw [loop_iteration_of_trigger s t_check t_store level ht]
    simp
  · rw [loop_iteration_of_no_trigger s t_check t_store level ht]
    exact Or.inl rfl

/-! ## The input gate, continued -/

/-- C11 as stated fails in its parenthesis. With stored time 60000 and the
    clock at 110000 the 50 ms delay has elapsed, yet the stored time is left
    at 60000 and is not the clock value, for both pin levels; and with stored
    time 100000 and the clock back at 0 no delay has elapsed, yet the stored
    time is overwritten with 0. -/
theorem stored_time_parenthesis_fails :
    110000 - 60000 ≥ 50000 ∧
    (debounce_button 60000 110000 110000 true).last_debounce_time = 60000 ∧
    (debounce_button 60000 110000 110000 false).last_debounce_time = 60000 ∧
    (debounce_button 60000 110000 110000 false).last_debounce_time ≠ 110000 ∧
    (0 : Nat) < 100000 ∧
    (debounce_button 100000 0 0 true).last_debounce_time = 0 ∧
    (debounce_button 100000 0 0 true).last_debounce_time ≠ 100000 := by
  decide

/-- C11 (amended): the stored last-check time after a call of
    `debounce_button` does not depend on the pin level: for every stored time
    `last` and every two clock values read by the call (`t_check` in the
    test, `t_store` in the assignment) the call leaves the same stored time
    with the pin high and with the pin low. For `t_check ≥ last` that time is
    the clock value `t_store` when strictly more than 50000 microseconds have
    elapsed and is unchanged when at most 50000 have (so unchanged at exactly
    50000); for `t_check < last` the elapsed time wraps to
    `t_check + 2 ^ 64 - last`, and the stored time is `t_store` when that
    exceeds 50000 and unchanged otherwise. -/
theorem stored_time_independent_of_level (last t_check t_store : Nat) (l1 l2 : Bool) :
    (debounce_button last t_check t_store l1).last_debounce_time =
      (debounce_button last t_check t_store l2).last_debounce_time ∧
    (last ≤ t_check → t_check < U64 →
      (t_check - last > 50000 →
        (debounce_button last t_check t_store l1).last_debounce_time = t_store) ∧
      (t_check - last ≤ 50000 →
        (debounce_button last t_check t_store l1).last_debounce_time = last)) ∧
    (t_check < last → last < U64 →
      (t_check + U64 - last > 50000 →
        (debounce_button last t_check t_store l1).last_debounce_time = t_store) ∧
      (t_check + U64 - last ≤ 50000 →
        (debounce_button last t_check t_store l1).last_debounce_time = last)) := by
  have hopen : u64_sub t_check last > 50000 →
      (debounce_button last t_check t_store l1).last_debounce_time = t_store := by
    intro h; rw [debounce_button_open last t_check t_store l1 h]
  have hclosed : ¬ u64_sub t_check last > 50000 →
      (debounce_button last t_check t_store l1).last_debounce_time = last := by
    intro h; rw [debounce_button_closed last t_check t_store l1 h]
  refine ⟨?_, ?_, ?_⟩
  · by_cases h : u64_sub t_check last > 50000
    · rw [debounce_button_open last t_check t_store l1 h,
        debounce_button_open last t_check t_store l2 h]
    · rw [debounce_button_closed last t_check t_store l1 h,
        debounce_button_closed last t_check t_store l2 h]
  · intro hle h64
    have e := u64_sub_of_le t_check last hle h64
    exact ⟨fun h => hopen (by rw [e]; exact h), fun h => hclosed (by rw [e]; omega)⟩
  · intro hlt h64
    have e := u64_sub_of_lt t_check last hlt h64
    exact ⟨fun h => hopen (by rw [e]; exact h), fun h => hclosed (by rw [e]; omega)⟩

/-- Witness of C11 (amended): two different clock reads (50001 in the test,
    50007 in the assignment) on a fresh gate; the boundary 50000 after an
    accepted check at 60000; the clock back at 0 against a stored 100000. -/
theorem stored_time_independent_of_level_witness :
    (debounce_button 0 50001 50007 true).last_debounce_time =
      (debounce_button 0 50001 50007 false).last_debounce_time ∧
    (0 : Nat) ≤ 50001 ∧ 50001 < U64 ∧ 50001 - 0 > 50000 ∧
    (debounce_button 0 50001 50007 true).last_debounce_time = 50007 ∧
    (60000 : Nat) ≤ 110000 ∧ 110000 < U64 ∧ 110000 - 60000 ≤ 50000 ∧
    (debounce_button 60000 110000 110000 true).last_debounce_time = 60000 ∧
    (0 : Nat) < 100000 ∧ 100000 < U64 ∧ 0 + U64 - 100000 > 50000 ∧
    (debounce_button 100000 0 0 true).last_debounce_time = 0 :=
  ⟨(stored_time_independent_of_level 0 50001 50007 true false).1,
    by decide, by decide, by decide,
    ((stored_time_independent_of_level 0 50001 50007 true false).2.1
      (by decide) (by decide)).1 (by decide),
    by decide, by decide, by decide,
    ((stored_time_independent_of_level 60000 110000 110000 true false).2.1
      (by decide) (by decide)).2 (by decide),
    by decide, by decide, by decide,
    ((stored_time_independent_of_level 100000 0 0 true false).2.2
      (by decide) (by decide)).1 (by decide)⟩

/-- C16: the gate does no edge detection: for every stored time `last` and
    clock values `now1 < now2` with `now1 - last` and `now2 - now1` both beyond
    the debounce window (more than 50000), two consecutive calls of
    `debounce_button` at `now1` and at `now2` with the pin low (pressed) both
    times both return true. -/
theorem held_button_reported_again (last now1 now2 : Nat)
    (h1 : now1 - last > 50000) (h2 : now2 - now1 > 50000) (h64 : now2 < U64) :
    now1 < now2 ∧
    (debounce_button last now1 now1 false).ret = true ∧
    (debounce_button (debounce_button last now1 now1 false).last_debounce_time
      now2 now2 false).ret = true := by
  have e1 : u64_sub now1 last > 50000 := by
    rw [u64_sub_of_le now1 last (by omega) (by omega)]; exact h1
  have e2 : u64_sub now2 now1 > 50000 := by
    rw [u64_sub_of_le now2 now1 (by omega) h64]; exact h2
  refine ⟨by omega, ?_, ?_⟩
  · rw [debounce_button_open last now1 now1 false e1]; rfl
  · rw [debounce_button_open last now1 now1 false e1]
    show (debounce_button now1 now2 now2 false).ret = true
    rw [debounce_button_open now1 now2 now2 false e2]; rfl

/-- Witness of C16: the button held low across the gate openings at 60 ms
    and 120 ms. -/
theorem held_button_reported_again_witness :
    60000 - 0 > 50000 ∧ 120000 - 60000 > 50000 ∧ 120000 < U64 ∧
    (60000 : Nat) < 120000 ∧
    (debounce_button 0 60000 60000 false).ret = true ∧
    (debounce_button (debounce_button 0 60000 60000 false).last_debounce_time
      120000 120000 false).ret = true :=
  ⟨by decide, by decide, by decide,
    held_button_reported_again 0 60000 120000 (by decide) (by decide) (by decide)⟩

/-! ## Executions from the initial state -/

/-- C12: in every state reachable from the initial state (level `IDLE`, no
    alarm pending) by main-loop iterations, with arbitrary clock values and
    pin levels, and firings of a pending alarm, at most one alarm is pending. -/
theorem at_most_one_pending (es : List Event) (h : Event.call ∉ es) :
    (run es initial).alarms.length ≤ 1 := by
  have ha := AlarmInv_run es initial AlarmInv_initial h
  unfold AlarmInv at ha
  rw [ha]
  split_ifs <;> simp

/-- Witness of C12: a press, a second press 4 s later while the countdown
    runs, and two firings. -/
theorem at_most_one_pending_witness :
    Event.call ∉ [Event.poll 60000 60000 false, Event.fire,
      Event.poll 4000000 4000000 false, Event.fire] ∧
    (run [Event.poll 60000 60000 false, Event.fire,
      Event.poll 4000000 4000000 false, Event.fire] initial).alarms.length ≤ 1 :=
  ⟨by decide, at_most_one_pending _ (by decide)⟩

/-- C17: in every state reachable from the initial state by main-loop
    iterations and invocations of `alarm_callback` (by a firing alarm or bare),
    `current_state` is one of `IDLE` (0), `ONE_ON` (1), `TWO_ON` (2),
    `ALL_ON` (3); and every event either leaves it unchanged, or is a main-loop
    iteration at `IDLE` that sets it to `ALL_ON`, or is an invocation of
    `alarm_callback` that decrements it by exactly one. -/
theorem level_always_valid (es : List Event) :
    is_level (run es initial).current_state ∧
    ∀ e : Event,
      (step (run es initial) e).current_state = (run es initial).current_state ∨
      ((∃ t_check t_store level, e = Event.poll t_check t_store level) ∧
        (run es initial).current_state = IDLE ∧
        (step (run es initial) e).current_state = ALL_ON) ∨
      ((e = Event.fire ∨ e = Event.call) ∧
        (step (run es initial) e).current_state =
          (run es initial).current_state - 1) := by
  refine ⟨(LevelInv_run es initial LevelInv_initial).1, ?_⟩
  intro e
  cases e with
  | poll t_check t_store level =>
    rcases loop_iteration_current_state_cases (run es initial) t_check t_store level
      with h | h
    · exact Or.inl h
    · exact Or.inr (Or.inl ⟨⟨t_check, t_store, level, rfl⟩, h⟩)
  | fire =>
    rcases fire_alarm_current_state_cases (run es initial) with h | h
    · exact Or.inl h
    · exact Or.inr (Or.inr ⟨Or.inl rfl, h⟩)
  | call =>
    rcases advance_current_state_cases (run es initial) with h | h
    · exact Or.inl h
    · exact Or.inr (Or.inr ⟨Or.inr rfl, h⟩)

/-- C18: outputs never lag the level: starting from the initial state (level
    `IDLE`, all three outputs off), after every main-loop iteration and every
    invocation of `alarm_callback` the three LED outputs are the output mapping
    of the current level, so a further `update_leds` would change no output. -/
theorem outputs_track_level (es : List Event) :
    initial.current_state = IDLE ∧ leds initial = (false, false, false) ∧
    output_mapping (run es initial).current_state = some (leds (run es initial)) ∧
    leds (update_leds (run es initial)) = leds (run es initial) := by
  have h := LevelInv_run es initial LevelInv_initial
  refine ⟨rfl, rfl, h.2, ?_⟩
  have h2 := output_mapping_update_leds (run es initial) h.1
  rw [h.2] at h2
  exact (Option.some.inj h2).symm

/-- C19: the machine is never stuck lit: in every state reachable from the
    initial state by main-loop iterations and firings of a pending alarm, an
    alarm is pending if and only if `current_state` is above `IDLE`; and from
    a reachable level `n` exactly `n` further firings bring the machine to
    `IDLE` with no alarm pending (after fewer firings the level is still above
    `IDLE`). -/
theorem never_stuck_lit (es : List Event) (h : Event.call ∉ es) :
    ((run es initial).alarms ≠ [] ↔ (run es initial).current_state > IDLE) ∧
    ∃ n : Nat, (n : Int) = (run es initial).current_state ∧
      (run (List.replicate n Event.fire) (run es initial)).current_state = IDLE ∧
      (run (List.replicate n Event.fire) (run es initial)).alarms = [] ∧
      ∀ k : Nat, k < n →
        (run (List.replicate k Event.fire) (run es initial)).current_state > IDLE := by
  have ha := AlarmInv_run es initial AlarmInv_initial h
  have hl := (LevelInv_run es initial LevelInv_initial).1
  refine ⟨?_, ?_⟩
  · have ha2 := ha
    unfold AlarmInv at ha2
    rw [ha2]
    split_ifs with hp
    · simp [hp]
    · simp [hp]
  · have h0 : (0 : Int) ≤ (run es initial).current_state := by
      unfold is_level IDLE ONE_ON TWO_ON ALL_ON at hl
      omega
    refine ⟨(run es initial).current_state.toNat, Int.toNat_of_nonneg h0, ?_⟩
    obtain ⟨c1, c2, c3⟩ := fire_countdown (run es initial).current_state.toNat
      (run es initial) ha (Int.toNat_of_nonneg h0).symm
    refine ⟨c1, c2, ?_⟩
    intro k hk
    rw [c3 k hk]
    unfold IDLE
    omega

/-- Witness of C19: after a press and one firing the level is `TWO_ON`, one
    alarm is pending, and two more firings end the countdown. -/
theorem never_stuck_lit_witness :
    Event.call ∉ [Event.poll 60000 60000 false, Event.fire] ∧
    ((run [Event.poll 60000 60000 false, Event.fire] initial).alarms ≠ [] ↔
      (run [Event.poll 60000 60000 false, Event.fire] initial).current_state > IDLE) ∧
    (run [Event.poll 60000 60000 false, Event.fire] initial).current_state = TWO_ON ∧
    (run (List.replicate 2 Event.fire)
      (run [Event.poll 60000 60000 false, Event.fire] initial)).current_state = IDLE :=
  ⟨by decide, (never_stuck_lit _ (by decide)).1, by decide, by decide⟩

/-- C13 as stated fails at its first step: with the button pressed at t = 0 on
    the initial state the gate call returns false, the trigger does not fire,
    and the machine stays at `IDLE` with all outputs off and no alarm armed. -/
theorem press_at_time_zero_ignored :
    (debounce_button initial.last_debounce_time 0 0 false).ret = false ∧
    (run [Event.poll 0 0 false] initial).current_state = IDLE ∧
    leds (run [Event.poll 0 0 false] initial) = (false, false, false) ∧
    (run [Event.poll 0 0 false] initial).alarms = [] ∧
    (run [Event.poll 0 0 false] initial).current_state ≠ ALL_ON := by
  decide

/-- C13 (amended): end-to-end scenario. The system starts at `IDLE` with all
    outputs off; with the button pressed at a clock value `t` of more than
    50000 microseconds the gate call returns true and the trigger fires:
    level `ALL_ON`, outputs (1,1,1), one alarm armed. The first firing gives
    `TWO_ON`, (0,1,1) and a new alarm; the second gives `ONE_ON`, (0,0,1) and a
    new alarm; the third gives `IDLE`, (0,0,0) and no alarm. -/
theorem end_to_end_scenario (t : Nat) (ht : 50000 < t) (h64 : t < U64) :
    initial.current_state = IDLE ∧ leds initial = (false, false, false) ∧
    (debounce_button initial.last_debounce_time t t false).ret = true ∧
    (run [Event.poll t t false] initial).current_state = ALL_ON ∧
    leds (run [Event.poll t t false] initial) = (true, true, true) ∧
    (run [Event.poll t t false] initial).alarms = [3000] ∧
    (run [Event.poll t t false, Event.fire] initial).current_state = TWO_ON ∧
    leds (run [Event.poll t t false, Event.fire] initial) = (false, true, true) ∧
    (run [Event.poll t t false, Event.fire] initial).alarms = [3000] ∧
    (run [Event.poll t t false, Event.fire, Event.fire] initial).current_state = ONE_ON ∧
    leds (run [Event.poll t t false, Event.fire, Event.fire] initial)
      = (false, false, true) ∧
    (run [Event.poll t t false, Event.fire, Event.fire] initial).alarms = [3000] ∧
    (run [Event.poll t t false, Event.fire, Event.fire, Event.fire] initial).current_state
      = IDLE ∧
    leds (run [Event.poll t t false, Event.fire, Event.fire, Event.fire] initial)
      = (false, false, false) ∧
    (run [Event.poll t t false, Event.fire, Event.fire, Event.fire] initial).alarms
      = [] := by
  have hopen : u64_sub t initial.last_debounce_time > 50000 := by
    rw [u64_sub_of_le t initial.last_debounce_time (Nat.zero_le t) h64]; exact ht
  have hd := debounce_button_open initial.last_debounce_time t t false hopen
  have hret : (debounce_button initial.last_debounce_time t t false).ret = true := by
    rw [hd]; rfl
  have h1 : run [Event.poll t t false] initial =
      { current_state := ALL_ON, last_press_time := 0, last_debounce_time := t,
        led_green := true, led_blue := true, led_red := true, alarms := [3000] } := by
    show loop_iteration initial t t false = _
    rw [loop_iteration_of_trigger initial t t false ⟨hret, rfl⟩, hd]
    rfl
  have h2 : run [Event.poll t t false, Event.fire] initial =
      { current_state := TWO_ON, last_press_time := 0, last_debounce_time := t,
        led_green := false, led_blue := true, led_red := true, alarms := [3000] } := by
    rw [show [Event.poll t t false, Event.fire] = [Event.poll t t false] ++ [Event.fire]
      from rfl, run_append, h1]
    rfl
  have h3 : run [Event.poll t t false, Event.fire, Event.fire] initial =
      { current_state := ONE_ON, last_press_time := 0, last_debounce_time := t,
        led_green := false, led_blue := false, led_red := true, alarms := [3000] } := by
    rw [show [Event.poll t t false, Event.fire, Event.fire] =
      [Event.poll t t false, Event.fire] ++ [Event.fire] from rfl, run_append, h2]
    rfl
  have h4 : run [Event.poll t t false, Event.fire, Event.fire, Event.fire] initial =
      { current_state := IDLE, last_press_time := 0, last_debounce_time := t,
        led_green := false, led_blue := false, led_red := false, alarms := [] } := by
    rw [show [Event.poll t t false, Event.fire, Event.fire, Event.fire] =
      [Event.poll t t false, Event.fire, Event.fire] ++ [Event.fire] from rfl,
      run_append, h3]
    rfl
  rw [h1, h2, h3, h4]
  exact ⟨rfl, rfl, hret, rfl, rfl, rfl, rfl, rfl, rfl, rfl, rfl, rfl, rfl, rfl, rfl⟩

/-- Witness of C13 (amended): the button pressed at t = 60 ms. -/
theorem end_to_end_scenario_witness :
    50000 < 60000 ∧ 60000 < U64 ∧
    (run [Event.poll 60000 60000 false] initial).current_state = ALL_ON ∧
    leds (run [Event.poll 60000 60000 false, Event.fire] initial) = (false, true, true) ∧
    (run [Event.poll 60000 60000 false, Event.fire, Event.fire, Event.fire]
      initial).alarms = [] :=
  have w := end_to_end_scenario 60000 (by decide) (by decide)
  ⟨by decide, by decide, w.2.2.2.1, w.2.2.2.2.2.2.2.1, w.2.2.2.2.2.2.2.2.2.2.2.2.2.2⟩

/-! ## The display as a countdown -/

/-- C15: the output mapping is a countdown: at each of the four levels the
    number of LEDs that `update_leds` turns on equals the numeric value of the
    level, and the lit sets are nested: every LED that is on at a level is on
    at every higher level. -/
theorem display_is_countdown (s : State) (h : is_level s.current_state) :
    (lit_count (update_leds s) : Int) = s.current_state ∧
    ∀ s2 : State, is_level s2.current_state → s.current_state ≤ s2.current_state →
      ((update_leds s).led_green = true → (update_leds s2).led_green = true) ∧
      ((update_leds s).led_blue = true → (update_leds s2).led_blue = true) ∧
      ((update_leds s).led_red = true → (update_leds s2).led_red = true) := by
  have key : ∀ x : State, is_level x.current_state →
      ((update_leds x).led_green = decide (x.current_state ≥ 3)) ∧
      ((update_leds x).led_blue = decide (x.current_state ≥ 2)) ∧
      ((update_leds x).led_red = decide (x.current_state ≥ 1)) := by
    intro x hx
    obtain ⟨a, b, c, d⟩ := leds_update_leds x
    unfold leds at a b c d
    rcases hx with e | e | e | e
    · have := d e; rw [e]; simp only [Prod.mk.injEq] at this
      obtain ⟨p, q, r⟩ := this; rw [p, q, r]; decide
    · have := c e; rw [e]; simp only [Prod.mk.injEq] at this
      obtain ⟨p, q, r⟩ := this; rw [p, q, r]; decide
    · have := b e; rw [e]; simp only [Prod.mk.injEq] at this
      obtain ⟨p, q, r⟩ := this; rw [p, q, r]; decide
    · have := a e; rw [e]; simp only [Prod.mk.injEq] at this
      obtain ⟨p, q, r⟩ := this; rw [p, q, r]; decide
  obtain ⟨g1, b1, r1⟩ := key s h
  refine ⟨?_, ?_⟩
  · unfold lit_count
    rw [g1, b1, r1]
    rcases h with e | e | e | e <;> rw [e] <;> decide
  · intro s2 h2 hle
    obtain ⟨g2, b2, r2⟩ := key s2 h2
    rw [g1, b1, r1, g2, b2, r2]
    simp only [decide_eq_true_eq]
    refine ⟨?_, ?_, ?_⟩ <;> intro hh <;> omega

/-- Witness of C15: at `TWO_ON` two LEDs are lit, and they are lit at
    `ALL_ON` too. -/
theorem display_is_countdown_witness :
    is_level two_on_state.current_state ∧
    (lit_count (update_leds two_on_state) : Int) = 2 ∧
    is_level all_on_state.current_state ∧
    two_on_state.current_state ≤ all_on_state.current_state ∧
    ((update_leds two_on_state).led_blue = true →
      (update_leds all_on_state).led_blue = true) :=
  have w := display_is_countdown two_on_state (Or.inr (Or.inr (Or.inl rfl)))
  ⟨Or.inr (Or.inr (Or.inl rfl)), w.1, Or.inr (Or.inr (Or.inr rfl)), by decide,
    ((w.2 all_on_state (Or.inr (Or.inr (Or.inr rfl))) (by decide)).2.1)⟩

/-! ## Interleaving the trigger with the callback -/

/-- With no alarm pending the pool has nothing to fire. -/
theorem fire_alarm_of_no_alarm (s : State) (h : s.alarms = []) : fire_alarm s = s := by
  unfold fire_alarm; rw [h]

theorem is_level_advance (s : State) (h : is_level s.current_state) :
    is_level (advance s).current_state := by
  by_cases hp : s.current_state > IDLE
  · rw [advance_current_state_of_pos s hp]; exact is_level_pred _ h hp
  · rw [advance_of_not_pos s hp]; exact h

theorem is_level_fire_alarm (s : State) (h : is_level s.current_state) :
    is_level (fire_alarm s).current_state := by
  unfold fire_alarm
  split
  · exact h
  · rename_i a rest he
    exact is_level_advance { s with alarms := rest } h

/-- The statements of the loop body, run one after the other with no
    interrupt, are one main-loop iteration: two steps when the condition of
    the `if` is false, five when it is true. -/
theorem micro_run_iteration (s : State) (t_check t_store : Nat) (level : Bool) :
    micro_run
      (List.replicate
        (if (debounce_button s.last_debounce_time t_check t_store level).ret = true ∧
          s.current_state = IDLE then 5 else 2)
        (Micro.main t_check t_store level))
      { state := s, pc := Pc.top } =
    { state := loop_iteration s t_check t_store level, pc := Pc.top } := by
  by_cases ht : (debounce_button s.last_debounce_time t_check t_store level).ret = true ∧
      s.current_state = IDLE
  · rw [if_pos ht, loop_iteration_of_trigger s t_check t_store level ht]
    simp [List.replicate, micro_run, micro_step, ht.1, ht.2]
  · rw [if_neg ht, loop_iteration_of_no_trigger s t_check t_store level ht]
    have hg : ((debounce_button s.last_debounce_time t_check t_store level).ret &&
        s.current_state == IDLE) = false := by
      simpa using ht
    simp [List.replicate, micro_run, micro_step, hg]

theorem MachineInv_irq (m : Machine) (h : MachineInv m) :
    MachineInv (micro_step m Micro.irq) := by
  obtain ⟨s, pc⟩ := m
  cases pc with
  | top => exact ⟨is_level_fire_alarm s h.1, AlarmInv_fire_alarm s h.2⟩
  | gated ret => exact ⟨is_level_fire_alarm s h.1, AlarmInv_fire_alarm s h.2⟩
  | passed =>
    show MachineInv { state := fire_alarm s, pc := Pc.passed }
    rw [fire_alarm_of_no_alarm s h.2]; exact h
  | assigned =>
    show MachineInv { state := fire_alarm s, pc := Pc.assigned }
    rw [fire_alarm_of_no_alarm s h.2]; exact h
  | updated =>
    show MachineInv { state := fire_alarm s, pc := Pc.updated }
    rw [fire_alarm_of_no_alarm s h.2]; exact h

theorem MachineInv_main (m : Machine) (t_check t_store : Nat) (level : Bool)
    (h : MachineInv m) : MachineInv (micro_step m (Micro.main t_check t_store level)) := by
  obtain ⟨s, pc⟩ := m
  cases pc with
  | top => exact h
  | gated ret =>
    by_cases hg : (ret && s.current_state == IDLE) = true
    · have hs : micro_step { state := s, pc := Pc.gated ret }
          (Micro.main t_check t_store level) = { state := s, pc := Pc.passed } := by
        simp only [micro_step]; rw [if_pos hg]
      rw [hs]
      have hi : s.current_state = IDLE := by
        simp only [Bool.and_eq_true, beq_iff_eq] at hg; exact hg.2
      have ha : s.alarms = [] := by
        have := h.2
        unfold AlarmInv at this
        rw [this, if_neg (by rw [hi]; exact lt_irrefl _)]
      exact ⟨hi, ha⟩
    · have hs : micro_step { state := s, pc := Pc.gated ret }
          (Micro.main t_check t_store level) = { state := s, pc := Pc.top } := by
        simp only [micro_step]; rw [if_neg hg]
      rw [hs]; exact h
  | passed => exact ⟨rfl, h.2⟩
  | assigned =>
    exact ⟨by rw [← h.1]; exact update_leds_current_state s,
      by rw [← h.2]; exact update_leds_alarms s⟩
  | updated =>
    refine ⟨Or.inr (Or.inr (Or.inr h.1)), ?_⟩
    show (add_alarm_in_ms 3000 s).alarms =
      if (add_alarm_in_ms 3000 s).current_state > IDLE then [3000] else []
    rw [add_alarm_in_ms_alarms, add_alarm_in_ms_current_state, h.1, h.2]
    rfl

theorem MachineInv_micro_run (xs : List Micro) (m : Machine) (h : MachineInv m) :
    MachineInv (micro_run xs m) := by
  induction xs generalizing m with
  | nil => exact h
  | cons x xs ih =>
    cases x with
    | main t_check t_store level => exact ih _ (MachineInv_main m t_check t_store level h)
    | irq => exact ih _ (MachineInv_irq m h)

theorem MachineInv_start : MachineInv Machine.start :=
  ⟨Or.inl rfl, rfl⟩

/-- What the invariant says at every position: a valid level and at most one
    pending alarm. -/
theorem MachineInv_observed (m : Machine) (h : MachineInv m) :
    is_level m.state.current_state ∧ m.state.alarms.length ≤ 1 := by
  obtain ⟨s, pc⟩ := m
  have hal : AlarmInv s → s.alarms.length ≤ 1 := by
    intro ha; unfold AlarmInv at ha; rw [ha]; split_ifs <;> simp
  cases pc with
  | top => exact ⟨h.1, hal h.2⟩
  | gated ret => exact ⟨h.1, hal h.2⟩
  | passed => exact ⟨Or.inl h.1, by show s.alarms.length ≤ 1; rw [h.2]; simp⟩
  | assigned =>
    exact ⟨Or.inr (Or.inr (Or.inr h.1)), by show s.alarms.length ≤ 1; rw [h.2]; simp⟩
  | updated =>
    exact ⟨Or.inr (Or.inr (Or.inr h.1)), by show s.alarms.length ≤ 1; rw [h.2]; simp⟩

/-- C14: interleaving the trigger (the main-loop body that tests
    `current_state == IDLE`, sets `ALL_ON`, updates the LEDs and arms an
    alarm) with `alarm_callback` run by the alarm pool in interrupt context,
    at any point between the statements of the body, never shows a level
    outside `IDLE`, `ONE_ON`, `TWO_ON`, `ALL_ON` and never leaves two alarms
    pending: both hold after every prefix of every interleaved execution from
    the initial state. -/
theorem interleaving_safe (xs : List Micro) :
    is_level (micro_run xs Machine.start).state.current_state ∧
    (micro_run xs Machine.start).state.alarms.length ≤ 1 := by
  have hinv : MachineInv (micro_run xs Machine.start) :=
    MachineInv_micro_run xs Machine.start MachineInv_start
  obtain ⟨hlevel, hpending⟩ := MachineInv_observed (micro_run xs Machine.start) hinv
  exact ⟨hlevel, hpending⟩

/-- An interleaving in which the callback does run inside an iteration: the
    countdown is at `ONE_ON` when `debounce_button` reports a press, the last
    alarm fires before `current_state == IDLE` is evaluated, and the trigger
    then starts a new countdown with a single alarm pending. -/
theorem interleaving_sample :
    (micro_run
      [Micro.main 60000 60000 false, Micro.main 0 0 true, Micro.main 0 0 true,
        Micro.main 0 0 true, Micro.main 0 0 true, Micro.irq, Micro.irq]
      Machine.start).state.current_state = ONE_ON ∧
    (micro_run
      [Micro.main 60000 60000 false, Micro.main 0 0 true, Micro.main 0 0 true,
        Micro.main 0 0 true, Micro.main 0 0 true, Micro.irq, Micro.irq,
        Micro.main 7000000 7000000 false, Micro.irq, Micro.main 0 0 true]
      Machine.start) =
      { state :=
          { current_state := IDLE, last_press_time := 0, last_debounce_time := 7000000,
            led_green := false, led_blue := false, led_red := false, alarms := [] },
        pc := Pc.passed } ∧
    (micro_run
      [Micro.main 60000 60000 false, Micro.main 0 0 true, Micro.main 0 0 true,
        Micro.main 0 0 true, Micro.main 0 0 true, Micro.irq, Micro.irq,
        Micro.main 7000000 7000000 false, Micro.irq, Micro.main 0 0 true,
        Micro.main 0 0 true, Micro.irq, Micro.main 0 0 true, Micro.main 0 0 true]
      Machine.start) =
      { state :=
          { current_state := ALL_ON, last_press_time := 0, last_debounce_time := 7000000,
            led_green := true, led_blue := true, led_red := true, alarms := [3000] },
        pc := Pc.top } := by
  decide

end Temporizador
